import Mathlib

/-! Shallow embedding of `server.js`, a small product-catalog backend:
schema initialization, conditional seeding of twelve sample products inside
one transaction, a filtered listing endpoint (GET /api/products), a create
endpoint (POST /api/products), and process bootstrap. -/

/-- A row of the `products` table (`CREATE TABLE products` in `initDb`).
`none` models SQL NULL in nullable columns. -/
structure Product where
  id : Nat
  ext_id : Option Int
  name : String
  category : Option String
  /-- `price NUMERIC(10,2)`: an exact two-decimal fixed-point value,
  represented here in cents. -/
  price : Int
  image : Option String
  stock : Int
  created_at : Nat
  deriving DecidableEq, Repr

/-- Database state: the table rows plus the SERIAL sequence feeding `id`. -/
structure DbState where
  rows : List Product
  nextId : Nat
  deriving DecidableEq, Repr

/-- A fresh database (SERIAL sequences start at 1). -/
def DbState.empty : DbState := { rows := [], nextId := 1 }

/-- One entry of the hardcoded seed list (all fields populated). -/
structure SeedRow where
  ext_id : Int
  name : String
  category : String
  /-- Price in cents (e.g. `1999` for the source's `19.99`). -/
  price : Int
  image : String
  stock : Int
  deriving DecidableEq, Repr

/-- The fixed twelve-product sample set from `initDb`. -/
def seedProducts : List SeedRow := [
  { ext_id := 1, name := "Classic White T-Shirt", category := "tshirts", price := 1999,
    image := "https://images.unsplash.com/photo-1521572163474-6864f9cf17ab?w=400", stock := 50 },
  { ext_id := 2, name := "Cotton Polo Shirt", category := "shirts", price := 2999,
    image := "https://images.unsplash.com/photo-1596755094514-f87e34085b2c?w=400", stock := 30 },
  { ext_id := 3, name := "Slim Fit Blue Jeans", category := "jeans", price := 4999,
    image := "https://images.unsplash.com/photo-1542272454315-7f6d6f9a0cbe?w=400", stock := 25 },
  { ext_id := 4, name := "Casual Chino Pants", category := "pants", price := 3999,
    image := "https://images.unsplash.com/photo-1473966968600-fa801b869a1a?w=400", stock := 40 },
  { ext_id := 5, name := "Graphic Print T-Shirt", category := "tshirts", price := 2499,
    image := "https://images.unsplash.com/photo-1503341504253-dff4815485f1?w=400", stock := 60 },
  { ext_id := 6, name := "Formal Dress Shirt", category := "shirts", price := 4499,
    image := "https://images.unsplash.com/photo-1602810318383-e386cc2a3ccf?w=400", stock := 20 },
  { ext_id := 7, name := "Black Skinny Jeans", category := "jeans", price := 5499,
    image := "https://images.unsplash.com/photo-1541099649105-f69ad21f3246?w=400", stock := 8 },
  { ext_id := 8, name := "Cargo Pants", category := "pants", price := 4299,
    image := "https://images.unsplash.com/photo-1624378439575-d8705ad7ae80?w=400", stock := 28 },
  { ext_id := 9, name := "V-Neck T-Shirt", category := "tshirts", price := 2299,
    image := "https://images.unsplash.com/photo-1581655353564-df123a1eb820?w=400", stock := 45 },
  { ext_id := 10, name := "Denim Jacket", category := "shirts", price := 6999,
    image := "https://images.unsplash.com/photo-1576995853123-5a10305d93c0?w=400", stock := 15 },
  { ext_id := 11, name := "Ripped Jeans", category := "jeans", price := 5999,
    image := "https://images.unsplash.com/photo-1584370848010-d7fe6bc767ec?w=400", stock := 22 },
  { ext_id := 12, name := "Jogger Pants", category := "pants", price := 3699,
    image := "https://images.unsplash.com/photo-1551028719-00167b16eac5?w=400", stock := 35 }]

/-- The row materialized by
`INSERT INTO products (ext_id, name, category, price, image, stock)`:
`id` is drawn from the SERIAL sequence, `created_at` defaults to now(). -/
def mkRow (newId now : Nat) (ext_id : Option Int) (name : String) (category : Option String)
    (price : Int) (image : Option String) (stock : Int) : Product :=
  { id := newId, ext_id := ext_id, name := name, category := category,
    price := price, image := image, stock := stock, created_at := now }

/-- Effect of one successful INSERT on the database state. -/
def insertRow (db : DbState) (now : Nat) (ext_id : Option Int) (name : String)
    (category : Option String) (price : Int) (image : Option String) (stock : Int) : DbState :=
  { rows := db.rows ++ [mkRow db.nextId now ext_id name category price image stock],
    nextId := db.nextId + 1 }

/-- The seeder's insert loop inside BEGIN..COMMIT; `insertOk i` says whether the
i-th INSERT succeeds. The loop stops at the first failing insert (`none`). -/
def seedLoop (now : Nat) (insertOk : Nat → Bool) :
    DbState → Nat → List SeedRow → Option DbState
  | db, _, [] => some db
  | db, i, p :: rest =>
    if insertOk i then
      seedLoop now insertOk
        (insertRow db now (some p.ext_id) p.name (some p.category) p.price (some p.image) p.stock)
        (i + 1) rest
    else none

/-- The seeding transaction: on success COMMIT keeps all inserts and logs
"Seed complete."; on any insert failure ROLLBACK restores the previous state
and the error is logged. -/
def runSeedTxn (db : DbState) (now : Nat) (insertOk : Nat → Bool) : DbState × List String :=
  match seedLoop now insertOk db 0 seedProducts with
  | some db2 => (db2, ["Seed complete."])
  | none => (db, ["Error seeding products:"])

/-- `initDb`: create the table (idempotent), count rows, and seed if and only
if the count is zero. A seeding failure is caught inside `initDb` (non-fatal);
a table-creation failure propagates as an error. -/
def initDb (db : DbState) (now : Nat) (createTableOk : Bool) (insertOk : Nat → Bool) :
    Except String (DbState × List String) :=
  if createTableOk then
    if db.rows.length = 0 then
      let r := runSeedTxn db now insertOk
      .ok (r.1, "Seeding products table..." :: r.2)
    else
      .ok (db, ["Products table already has " ++ toString db.rows.length ++
                " rows, skip seeding."])
  else
    .error "create table failed"

/-- Rows produced by seeding, starting at a given sequence value. -/
def materializeSeed (startId now : Nat) : List SeedRow → List Product
  | [] => []
  | p :: rest =>
    mkRow startId now (some p.ext_id) p.name (some p.category) p.price (some p.image) p.stock ::
      materializeSeed (startId + 1) now rest

/-- ASCII lowercasing of a character list. -/
def lowerChars : List Char → List Char
  | [] => []
  | c :: cs => c.toLower :: lowerChars cs

/-- ASCII lowercasing of a string, modelling both the JS `toLowerCase()`
applied to the search term and the SQL `LOWER()` applied to `name`. -/
def lowerStr (s : String) : String := String.mk (lowerChars s.data)

/-- JS truthiness of an optional string (query parameter or env variable):
`undefined` and the empty string are falsy. -/
def jsTruthy : Option String → Bool
  | none => false
  | some s => !s.isEmpty

/-- Consume exactly one character of the subject, then continue. -/
def oneThen (k : List Char → Bool) : List Char → Bool
  | [] => false
  | _ :: s2 => k s2

/-- Consume one subject character that must equal `q`, then continue. -/
def litThen (q : Char) (k : List Char → Bool) : List Char → Bool
  | [] => false
  | c :: s2 => c = q && k s2

mutual

/-- SQL LIKE matching on character lists, Postgres semantics: `%` matches any
sequence, `_` matches exactly one character, backslash escapes the next
pattern character (a trailing escape matches nothing; the patterns built by
the handler always end in `%`, so that case is unreachable there). -/
def likeMatch : List Char → List Char → Bool
  | [], s => s.isEmpty
  | p :: ps, s =>
    if p = '%' then
      s.tails.any (fun t => likeMatch ps t)
    else if p = '_' then
      oneThen (fun s2 => likeMatch ps s2) s
    else if p = '\\' then
      likeEsc ps s
    else
      litThen p (fun s2 => likeMatch ps s2) s

/-- Escape continuation: the next pattern character is taken literally. -/
def likeEsc : List Char → List Char → Bool
  | [], _ => false
  | q :: ps2, s => litThen q (fun s2 => likeMatch ps2 s2) s

end

/-- One WHERE condition of the listing query together with its bound
parameter, as pushed onto the `where`/`params` arrays by the handler. -/
inductive Cond
  | categoryEq (v : String)
  | nameLike (pat : String)
  deriving DecidableEq, Repr

/-- SQL evaluation of one condition on one row. `category = $n` is false on a
NULL category; `LOWER(name) LIKE $n` is LIKE on the lowercased name. -/
def evalCond (c : Cond) (p : Product) : Bool :=
  match c with
  | .categoryEq v => p.category == some v
  | .nameLike pat => likeMatch pat.data (lowerStr p.name).data

/-- The dynamic WHERE construction of GET /api/products: push a category
condition when the parameter is truthy and not the sentinel "all", then a
LIKE condition on the lowercased search wrapped in percent signs when the
search parameter is truthy. -/
def buildConds (qCategory qSearch : Option String) : List Cond :=
  (if jsTruthy qCategory && (qCategory != some "all") then
     [Cond.categoryEq (qCategory.getD "")]
   else []) ++
  (if jsTruthy qSearch then
     [Cond.nameLike ("%" ++ lowerStr (qSearch.getD "") ++ "%")]
   else [])

/-- SQL fragment of a condition; the 1-based index is the placeholder number
(`params.length` right after the push). -/
def condFrag (i : Nat) (c : Cond) : String :=
  match c with
  | .categoryEq _ => "category = $" ++ toString i
  | .nameLike _ => "LOWER(name) LIKE $" ++ toString i

/-- Bound parameter carried by a condition. -/
def condParam : Cond → String
  | .categoryEq v => v
  | .nameLike pat => pat

/-- The SQL text and bound-parameter list the listing handler sends to the
driver: base SELECT, optional WHERE joined with AND, then ORDER BY id. -/
def buildListQuery (qCategory qSearch : Option String) : String × List String :=
  let conds := buildConds qCategory qSearch
  let frags := conds.mapIdx (fun i c => condFrag (i + 1) c)
  let base := "SELECT id, ext_id, name, category, price::numeric::float8 AS price, image, stock FROM products"
  ((if frags.length ≠ 0 then base ++ " WHERE " ++ String.intercalate " AND " frags else base) ++
     " ORDER BY id",
   conds.map condParam)

/-- Ascending-id order on rows (the ORDER BY id sort key). -/
def prodIdLe (a b : Product) : Prop := a.id ≤ b.id

instance : DecidableRel prodIdLe := fun a b => Nat.decLe a.id b.id

/-- Result set of GET /api/products: the rows satisfying every WHERE
condition, sorted by ascending id. -/
def listProducts (db : DbState) (qCategory qSearch : Option String) : List Product :=
  List.insertionSort prodIdLe
    (db.rows.filter (fun p => (buildConds qCategory qSearch).all (fun c => evalCond c p)))

/-- JSON body of POST /api/products; `none` models an absent field, which the
driver forwards to SQL as NULL. -/
structure CreateBody where
  name : Option String
  category : Option String
  /-- Price in cents when supplied. -/
  price : Option Int
  image : Option String
  stock : Option Int
  ext_id : Option Int
  deriving DecidableEq, Repr

/-- JS `v || d` on an optional integer: `undefined` and `0` are falsy. -/
def jsOrInt (v : Option Int) (d : Option Int) : Option Int :=
  match v with
  | none => d
  | some n => if n = 0 then d else some n

/-- HTTP outcome of the create handler. -/
inductive CreateResult
  | created (status : Nat) (row : Product)
  | failed (status : Nat) (errorBody : String)
  deriving DecidableEq, Repr

/-- POST /api/products: `INSERT ... RETURNING *` with `ext_id || null` and
`stock || 0`; `name` and `price` are NOT NULL, so a missing one fails the
insert, which the catch turns into a generic 500 with the table unchanged. -/
def createProduct (db : DbState) (now : Nat) (body : CreateBody) : DbState × CreateResult :=
  match body.name, body.price with
  | some nm, some pr =>
    let extv := jsOrInt body.ext_id none
    let stockv := (jsOrInt body.stock (some 0)).getD 0
    (insertRow db now extv nm body.category pr body.image stockv,
     .created 201 (mkRow db.nextId now extv nm body.category pr body.image stockv))
  | _, _ => (db, .failed 500 "Failed to create product")

/-- Process environment as read at startup. -/
structure Env where
  databaseUrl : Option String
  port : Option String
  deriving DecidableEq, Repr

/-- Terminal bootstrap outcome: the process exited, or the server listens. -/
inductive BootOutcome
  | exited (code : Nat)
  | listening (port : String)
  deriving DecidableEq, Repr

/-- JS `process.env.PORT || 3000`. -/
def resolvePort (p : Option String) : String :=
  match p with
  | none => "3000"
  | some s => if s.isEmpty then "3000" else s

/-- Bootstrap: the DATABASE_URL check runs at module load and exits with code
1 when the variable is falsy; otherwise `initDb` runs, a rejection exits with
code 1, and success starts listening on the resolved port. -/
def bootstrap (env : Env) (db : DbState) (now : Nat) (createTableOk : Bool)
    (insertOk : Nat → Bool) : BootOutcome :=
  if jsTruthy env.databaseUrl then
    match initDb db now createTableOk insertOk with
    | .ok _ => .listening (resolvePort env.port)
    | .error _ => .exited 1
  else
    .exited 1

/-- Whether the category filter is applied: parameter truthy and not "all"
(the condition of the first `if` in the handler). -/
def catActive (q : Option String) : Bool := jsTruthy q && (q != some "all")

/-- Whether the search filter is applied: parameter truthy
(the condition of the second `if` in the handler). -/
def searchActive (q : Option String) : Bool := jsTruthy q

/-- The four possible listing SQL texts, indexed by which filters are active. -/
def listingText : Bool → Bool → String
  | false, false =>
    "SELECT id, ext_id, name, category, price::numeric::float8 AS price, image, stock FROM products ORDER BY id"
  | true, false =>
    "SELECT id, ext_id, name, category, price::numeric::float8 AS price, image, stock FROM products WHERE category = $1 ORDER BY id"
  | false, true =>
    "SELECT id, ext_id, name, category, price::numeric::float8 AS price, image, stock FROM products WHERE LOWER(name) LIKE $1 ORDER BY id"
  | true, true =>
    "SELECT id, ext_id, name, category, price::numeric::float8 AS price, image, stock FROM products WHERE category = $1 AND LOWER(name) LIKE $2 ORDER BY id"

/-! ### Concrete fixtures used by example-level theorems -/

/-- A one-row database used for concrete evaluations. -/
def rowX : Product := { id := 1, ext_id := none, name := "abc", category := some "x",
                        price := 500, image := none, stock := 3, created_at := 0 }

def dbX : DbState := { rows := [rowX], nextId := 2 }

/-- The database right after a successful seed of a fresh database. -/
def dbSeeded : DbState := { rows := materializeSeed 1 0 seedProducts, nextId := 13 }

/-- The first seeded row (Classic White T-Shirt). -/
def rowTee : Product := mkRow 1 0 (some 1) "Classic White T-Shirt" (some "tshirts") 1999
  (some "https://images.unsplash.com/photo-1521572163474-6864f9cf17ab?w=400") 50

/-- The second seeded row (Cotton Polo Shirt). -/
def rowPolo : Product := mkRow 2 0 (some 2) "Cotton Polo Shirt" (some "shirts") 2999
  (some "https://images.unsplash.com/photo-1596755094514-f87e34085b2c?w=400") 30

/-- An insert-failure oracle: the sixth insert fails. -/
def failAt5 : Nat → Bool := fun j => !(j == 5)

/-- The all-success insert oracle. -/
def alwaysOk : Nat → Bool := fun _ => true

/-- A create body supplying ext_id = 0 (falsy in JS). -/
def bodyExtZero : CreateBody := { name := some "Widget", category := none, price := some 1000,
                                  image := none, stock := none, ext_id := some 0 }

/-- A create body missing the required price. -/
def bodyNoPrice : CreateBody := { name := some "Widget", category := some "misc", price := none,
                                  image := none, stock := some 4, ext_id := some 9 }

/-- A create body supplying only the required name and price. -/
def bodyMinimal : CreateBody := { name := some "Widget", category := none, price := some 1250,
                                  image := none, stock := none, ext_id := none }

/-- An environment with no DATABASE_URL. -/
def envNoUrl : Env := { databaseUrl := none, port := some "4000" }

/-- An environment with a DATABASE_URL and no PORT. -/
def envNoPort : Env := { databaseUrl := some "postgres://neon/db", port := none }

/-! ### General lemmas about the embedding -/

instance : IsTotal Product prodIdLe := ⟨fun a b => Nat.le_total a.id b.id⟩

instance : IsTrans Product prodIdLe := ⟨fun _ _ _ h h2 => Nat.le_trans h h2⟩

theorem mem_listProducts {db : DbState} {qc qs : Option String} {p : Product} :
    p ∈ listProducts db qc qs ↔
      p ∈ db.rows ∧ (buildConds qc qs).all (fun c => evalCond c p) = true := by
  unfold listProducts
  rw [List.mem_insertionSort, List.mem_filter]

theorem listProducts_pairwise (db : DbState) (qc qs : Option String) :
    List.Pairwise (fun a b : Product => a.id ≤ b.id) (listProducts db qc qs) :=
  List.sorted_insertionSort prodIdLe _

theorem likeMatch_percent (ps s : List Char) :
    likeMatch ('%' :: ps) s = true ↔ ∃ t, t <:+ s ∧ likeMatch ps t = true := by
  rw [likeMatch.eq_2, if_pos rfl, List.any_eq_true]
  constructor
  · rintro ⟨t, ht, hm⟩
    exact ⟨t, (List.mem_tails t s).mp ht, hm⟩
  · rintro ⟨t, ht, hm⟩
    exact ⟨t, (List.mem_tails t s).mpr ht, hm⟩

theorem likeMatch_lit (t : Char) (h1 : t ≠ '%') (h2 : t ≠ '_') (h3 : t ≠ '\\')
    (ps : List Char) :
    likeMatch (t :: ps) [] = false ∧
    ∀ c s, likeMatch (t :: ps) (c :: s) = (decide (c = t) && likeMatch ps s) := by
  constructor
  · rw [likeMatch.eq_2, if_neg h1, if_neg h2, if_neg h3]
    rfl
  · intro c s
    rw [likeMatch.eq_2, if_neg h1, if_neg h2, if_neg h3]
    rfl

theorem likeMatch_append_percent (lits : List Char)
    (h : ∀ c ∈ lits, c ≠ '%' ∧ c ≠ '_' ∧ c ≠ '\\') :
    ∀ s, likeMatch (lits ++ ['%']) s = true ↔ lits <+: s := by
  induction lits with
  | nil =>
    intro s
    simp only [List.nil_append]
    constructor
    · intro _
      exact List.nil_prefix
    · intro _
      rw [likeMatch_percent]
      exact ⟨[], List.nil_suffix, rfl⟩
  | cons t ts ih =>
    intro s
    have ht := h t (List.mem_cons_self t ts)
    have hts : ∀ c ∈ ts, c ≠ '%' ∧ c ≠ '_' ∧ c ≠ '\\' :=
      fun c hc => h c (List.mem_cons_of_mem t hc)
    rcases s with _ | ⟨c, s2⟩
    · rw [List.cons_append, (likeMatch_lit t ht.1 ht.2.1 ht.2.2 (ts ++ ['%'])).1]
      simp [List.prefix_nil]
    · rw [List.cons_append, (likeMatch_lit t ht.1 ht.2.1 ht.2.2 (ts ++ ['%'])).2 c s2,
        Bool.and_eq_true, decide_eq_true_eq, ih hts s2, List.cons_prefix_cons]
      constructor
      · rintro ⟨hct, hpre⟩
        exact ⟨hct.symm, hpre⟩
      · rintro ⟨htc, hpre⟩
        exact ⟨htc.symm, hpre⟩

theorem likeMatch_wrapped (lits : List Char)
    (h : ∀ c ∈ lits, c ≠ '%' ∧ c ≠ '_' ∧ c ≠ '\\') (s : List Char) :
    likeMatch ('%' :: (lits ++ ['%'])) s = true ↔ lits <:+: s := by
  rw [likeMatch_percent, List.infix_iff_prefix_suffix]
  constructor
  · rintro ⟨t, hts, hm⟩
    exact ⟨t, (likeMatch_append_percent lits h t).mp hm, hts⟩
  · rintro ⟨t, hpre, hts⟩
    exact ⟨t, hts, (likeMatch_append_percent lits h t).mpr hpre⟩

theorem isEmpty_false_of_ne (s : String) (h : s ≠ "") : s.isEmpty = false := by
  cases hb : s.isEmpty with
  | false => rfl
  | true => exact absurd ((String.isEmpty_iff s).mp hb) h

theorem jsTruthy_some (s : String) (h : s ≠ "") : jsTruthy (some s) = true := by
  show (!s.isEmpty) = true
  rw [isEmpty_false_of_ne s h]
  rfl

theorem catActive_true (c : String) (hc1 : c ≠ "") (hc2 : c ≠ "all") :
    (jsTruthy (some c) && (some c != some "all")) = true := by
  rw [jsTruthy_some c hc1, Bool.true_and, bne_iff_ne]
  intro h
  exact hc2 (Option.some.inj h)

theorem buildConds_cat (c : String) (hc1 : c ≠ "") (hc2 : c ≠ "all") (qs : Option String) :
    buildConds (some c) qs = Cond.categoryEq c :: buildConds none qs := by
  unfold buildConds
  rw [if_pos (catActive_true c hc1 hc2)]
  rfl

theorem buildConds_search (qc : Option String) (st : String) (hs : st ≠ "") :
    buildConds qc (some st) =
      buildConds qc none ++ [Cond.nameLike ("%" ++ lowerStr st ++ "%")] := by
  unfold buildConds
  rw [jsTruthy_some st hs]
  simp [jsTruthy]

theorem buildListQuery_text (qc qs : Option String) :
    (buildListQuery qc qs).1 = listingText (catActive qc) (searchActive qs) := by
  unfold buildListQuery buildConds catActive searchActive
  cases h1 : jsTruthy qc && (qc != some "all") <;> cases h2 : jsTruthy qs <;>
    simp [h1, h2, listingText, condFrag, String.intercalate] <;> rfl

/-- C3 counterexample: the category parameter can be present (value "") and
different from "all", yet the filter is not applied — a row whose category is
"x" (not "") is still returned, because the empty string is falsy in JS. -/
theorem c3_counterexample :
    (some "" : Option String) ≠ none ∧ (some "" : Option String) ≠ some "all" ∧
    listProducts dbX (some "") none = [rowX] ∧ rowX.category = some "x" :=
  ⟨by decide, by decide, by decide, rfl⟩

/-- C3 (amended): if the category parameter is present, non-empty and not
"all", every returned row has exactly (case-sensitively) that category; if it
is absent, empty, or "all", no category restriction is applied. -/
theorem c3_category_filter (db : DbState) (qc qs : Option String) :
    (∀ c : String, qc = some c → c ≠ "" → c ≠ "all" →
      ∀ p ∈ listProducts db qc qs, p.category = some c) ∧
    ((qc = none ∨ qc = some "" ∨ qc = some "all") →
      listProducts db qc qs = listProducts db none qs) := by
  constructor
  · rintro c rfl hc1 hc2 p hp
    rcases mem_listProducts.mp hp with ⟨-, hall⟩
    rw [buildConds_cat c hc1 hc2 qs, List.all_cons, Bool.and_eq_true] at hall
    simpa [evalCond] using hall.1
  · rintro (rfl | rfl | rfl) <;> rfl

/-- C3 witness: in the seeded database with category filter "tshirts", the
returned seed row indeed has category "tshirts". -/
theorem c3_witness : rowTee.category = some "tshirts" :=
  (c3_category_filter dbSeeded (some "tshirts") none).1 "tshirts" rfl
    (by decide) (by decide) rowTee (by decide)

/-- C10: a present-but-empty category or search parameter is treated exactly
as if the parameter were absent, both in the result set and in the generated
SQL query. -/
theorem c10_empty_filters_ignored (db : DbState) (qc qs : Option String) :
    listProducts db (some "") qs = listProducts db none qs ∧
    listProducts db qc (some "") = listProducts db qc none ∧
    buildListQuery (some "") qs = buildListQuery none qs ∧
    buildListQuery qc (some "") = buildListQuery qc none :=
  ⟨rfl, rfl, rfl, rfl⟩

/-- C4 counterexample: for the search term "a_c" the row named "abc" is
returned (the `_` acts as a LIKE single-character wildcard), although "a_c"
is not a substring of the case-folded name "abc". -/
theorem c4_counterexample :
    listProducts dbX none (some "a_c") = [rowX] ∧
    ¬ ((lowerStr "a_c").data <:+: (lowerStr rowX.name).data) :=
  ⟨by decide, by decide⟩

/-- C4 (amended): for a non-empty search term whose case-folded form contains
no LIKE metacharacter (`%`, `_`, `\`), the listing returns exactly the rows
whose case-folded name contains the case-folded term as a substring; terms
containing metacharacters are instead interpreted as LIKE wildcards. -/
theorem c4_search_substring (db : DbState) (s : String) (hs : s ≠ "")
    (hm : ∀ c ∈ (lowerStr s).data, c ≠ '%' ∧ c ≠ '_' ∧ c ≠ '\\') (p : Product) :
    p ∈ listProducts db none (some s) ↔
      p ∈ db.rows ∧ (lowerStr s).data <:+: (lowerStr p.name).data := by
  rw [mem_listProducts]
  have hb : buildConds none (some s) = [Cond.nameLike ("%" ++ lowerStr s ++ "%")] := by
    rw [buildConds_search none s hs]
    rfl
  rw [hb]
  simp only [List.all_cons, List.all_nil, Bool.and_true, evalCond]
  have hdata : ("%" ++ lowerStr s ++ "%").data = '%' :: ((lowerStr s).data ++ ['%']) := by
    rw [String.data_append, String.data_append]
    rfl
  rw [hdata, likeMatch_wrapped _ hm]

/-- C4 witness: searching "Shirt" in the seeded database, membership of the
"Cotton Polo Shirt" row coincides with case-folded substring containment. -/
theorem c4_witness :
    (rowPolo ∈ listProducts dbSeeded none (some "Shirt")) ↔
      (rowPolo ∈ dbSeeded.rows ∧ (lowerStr "Shirt").data <:+: (lowerStr rowPolo.name).data) :=
  c4_search_substring dbSeeded "Shirt" (by decide) (by decide) rowPolo

/-- C5: with both filters active, the listing returns exactly the rows
satisfying the category condition AND the search condition; and every listing
result, filtered or not, is ordered by ascending id. -/
theorem c5_combined_and_ordered (db : DbState) (c st : String)
    (hc1 : c ≠ "") (hc2 : c ≠ "all") (hs : st ≠ "") :
    (∀ p, p ∈ listProducts db (some c) (some st) ↔
      p ∈ db.rows ∧ p.category = some c ∧
        likeMatch ("%" ++ lowerStr st ++ "%").data (lowerStr p.name).data = true) ∧
    (∀ qc2 qs2 : Option String,
      List.Pairwise (fun a b : Product => a.id ≤ b.id) (listProducts db qc2 qs2)) := by
  constructor
  · intro p
    rw [mem_listProducts, buildConds_cat c hc1 hc2 (some st), buildConds_search none st hs]
    have hnil : buildConds none none = ([] : List Cond) := rfl
    rw [hnil, List.nil_append, List.all_cons, List.all_cons, List.all_nil]
    simp [evalCond, and_assoc]
  · intro qc2 qs2
    exact listProducts_pairwise db qc2 qs2

/-- C5 witness: in the seeded database with category "shirts" and search
"polo", membership of the "Cotton Polo Shirt" row coincides with the
conjunction of both conditions. -/
theorem c5_witness :
    rowPolo ∈ listProducts dbSeeded (some "shirts") (some "polo") ↔
      rowPolo ∈ dbSeeded.rows ∧ rowPolo.category = some "shirts" ∧
        likeMatch ("%" ++ lowerStr "polo" ++ "%").data (lowerStr rowPolo.name).data = true :=
  (c5_combined_and_ordered dbSeeded "shirts" "polo" (by decide) (by decide) (by decide)).1 rowPolo

/-- C8 counterexample: two listing requests that agree on the presence of
each parameter and on not being the sentinel "all" (category "" versus
category "x", search absent in both) produce different SQL texts, because the
empty string is falsy and skips the WHERE clause. -/
theorem c8_counterexample :
    (some "" : Option String) ≠ none ∧ (some "x" : Option String) ≠ none ∧
    (some "" : Option String) ≠ some "all" ∧ (some "x" : Option String) ≠ some "all" ∧
    (buildListQuery (some "") none).1 ≠ (buildListQuery (some "x") none).1 :=
  ⟨by decide, by decide, by decide, by decide, by decide⟩

/-- C8 (amended): the generated SQL text depends only on which filters are
active (parameter truthy, and for category also different from "all"); the
filter values themselves appear only in the bound-parameter list. -/
theorem c8_text_depends_only_on_flags (qc qs qc2 qs2 : Option String)
    (hc : catActive qc = catActive qc2) (hs : searchActive qs = searchActive qs2) :
    (buildListQuery qc qs).1 = (buildListQuery qc2 qs2).1 ∧
    (buildListQuery qc qs).2 = (buildConds qc qs).map condParam := by
  refine ⟨?_, rfl⟩
  rw [buildListQuery_text, buildListQuery_text, hc, hs]

/-- C8 witness: two different active category values yield the same SQL
text. -/
theorem c8_witness :
    (buildListQuery (some "tshirts") none).1 = (buildListQuery (some "jeans") none).1 :=
  (c8_text_depends_only_on_flags (some "tshirts") none (some "jeans") none
    (by decide) (by decide)).1

theorem materializeSeed_length (startId now : Nat) (ps : List SeedRow) :
    (materializeSeed startId now ps).length = ps.length := by
  induction ps generalizing startId with
  | nil => rfl
  | cons p rest ih =>
    simp [materializeSeed, ih]

theorem seedLoop_all_ok (now : Nat) (insertOk : Nat → Bool) :
    ∀ (ps : List SeedRow) (db : DbState) (i : Nat),
      (∀ j, j < ps.length → insertOk (i + j) = true) →
      seedLoop now insertOk db i ps =
        some { rows := db.rows ++ materializeSeed db.nextId now ps,
               nextId := db.nextId + ps.length } := by
  intro ps
  induction ps with
  | nil =>
    intro db i _
    simp [seedLoop, materializeSeed]
  | cons p rest ih =>
    intro db i h
    have h0 : insertOk i = true := by
      have := h 0 (by simp)
      rwa [Nat.add_zero] at this
    have hrest : ∀ j, j < rest.length → insertOk (i + 1 + j) = true := by
      intro j hj
      have := h (j + 1) (by simpa using Nat.succ_lt_succ hj)
      rwa [show i + (j + 1) = i + 1 + j by omega] at this
    rw [seedLoop, if_pos h0, ih _ (i + 1) hrest]
    simp [insertRow, materializeSeed, List.append_assoc]
    omega

theorem seedLoop_fails (now : Nat) (insertOk : Nat → Bool) :
    ∀ (ps : List SeedRow) (db : DbState) (i : Nat),
      (∃ j, j < ps.length ∧ insertOk (i + j) = false) →
      seedLoop now insertOk db i ps = none := by
  intro ps
  induction ps with
  | nil =>
    rintro db i ⟨j, hj, -⟩
    simp at hj
  | cons p rest ih =>
    rintro db i ⟨j, hj, hfail⟩
    cases h0 : insertOk i with
    | false =>
      rw [seedLoop, if_neg (by simp [h0])]
    | true =>
      rw [seedLoop, if_pos h0]
      apply ih
      cases j with
      | zero =>
        rw [Nat.add_zero] at hfail
        rw [h0] at hfail
        cases hfail
      | succ j2 =>
        refine ⟨j2, by simpa using Nat.lt_of_succ_lt_succ hj, ?_⟩
        rw [show i + 1 + j2 = i + (j2 + 1) by omega]
        exact hfail

theorem initDb_skip (db : DbState) (now : Nat) (iOk : Nat → Bool) (h : db.rows ≠ []) :
    initDb db now true iOk =
      .ok (db, ["Products table already has " ++ toString db.rows.length ++
                " rows, skip seeding."]) := by
  unfold initDb
  rw [if_pos rfl, if_neg (fun hh => h (List.length_eq_zero.mp hh))]

theorem initDb_seeds (db : DbState) (now : Nat) (iOk : Nat → Bool) (h0 : db.rows = [])
    (hall : ∀ j, j < seedProducts.length → iOk j = true) :
    initDb db now true iOk =
      .ok ({ rows := materializeSeed db.nextId now seedProducts,
             nextId := db.nextId + seedProducts.length },
           ["Seeding products table...", "Seed complete."]) := by
  have hsl := seedLoop_all_ok now iOk seedProducts db 0 (fun j hj => by
    rw [Nat.zero_add]
    exact hall j hj)
  unfold initDb runSeedTxn
  rw [if_pos rfl, if_pos (by rw [h0]; rfl), hsl, h0]
  rfl

theorem initDb_seed_fails (db : DbState) (now : Nat) (iOk : Nat → Bool) (h0 : db.rows = [])
    (hex : ∃ j, j < seedProducts.length ∧ iOk j = false) :
    initDb db now true iOk =
      .ok (db, ["Seeding products table...", "Error seeding products:"]) := by
  have hsl := seedLoop_fails now iOk seedProducts db 0 (by
    obtain ⟨j, hj, hf⟩ := hex
    exact ⟨j, hj, by rwa [Nat.zero_add]⟩)
  unfold initDb runSeedTxn
  rw [if_pos rfl, if_pos (by rw [h0]; rfl), hsl]

/-- C1: with the table empty at startup, `initDb` inserts exactly the twelve
sample rows (and logs the seed); a second startup then finds 12 rows and
skips seeding, so two startups insert the sample set exactly once; and any
non-empty table (even one stray row) skips seeding entirely. -/
theorem c1_seed_iff_empty (db : DbState) (now now2 : Nat) (insertOk : Nat → Bool) :
    (db.rows = [] →
      initDb db now true alwaysOk =
        .ok ({ rows := materializeSeed db.nextId now seedProducts,
               nextId := db.nextId + 12 },
             ["Seeding products table...", "Seed complete."]) ∧
      (materializeSeed db.nextId now seedProducts).length = 12 ∧
      initDb { rows := materializeSeed db.nextId now seedProducts,
               nextId := db.nextId + 12 } now2 true insertOk =
        .ok ({ rows := materializeSeed db.nextId now seedProducts,
               nextId := db.nextId + 12 },
             ["Products table already has 12 rows, skip seeding."])) ∧
    (db.rows ≠ [] →
      initDb db now true insertOk =
        .ok (db, ["Products table already has " ++ toString db.rows.length ++
                  " rows, skip seeding."])) := by
  constructor
  · intro h0
    refine ⟨initDb_seeds db now alwaysOk h0 (fun _ _ => rfl), ?_, ?_⟩
    · rw [materializeSeed_length]
      rfl
    · have hne : materializeSeed db.nextId now seedProducts ≠ [] := by
        intro hh
        have hlen := congrArg List.length hh
        rw [materializeSeed_length] at hlen
        exact absurd hlen (by decide)
      have hskip := initDb_skip
        { rows := materializeSeed db.nextId now seedProducts, nextId := db.nextId + 12 }
        now2 insertOk hne
      rw [show ({ rows := materializeSeed db.nextId now seedProducts,
                  nextId := db.nextId + 12 } : DbState).rows.length = 12 by
            rw [show ({ rows := materializeSeed db.nextId now seedProducts,
                        nextId := db.nextId + 12 } : DbState).rows =
                  materializeSeed db.nextId now seedProducts from rfl,
                materializeSeed_length]
            rfl] at hskip
      exact hskip
  · intro hne
    exact initDb_skip db now insertOk hne

/-- C1 witness: seeding a fresh empty database inserts the twelve sample
rows, then skips on the second startup. -/
theorem c1_witness :
    initDb DbState.empty 0 true alwaysOk =
      .ok ({ rows := materializeSeed 1 0 seedProducts, nextId := 13 },
           ["Seeding products table...", "Seed complete."]) :=
  ((c1_seed_iff_empty DbState.empty 0 0 alwaysOk).1 rfl).1

/-- C2: from an empty table, if all twelve inserts succeed the whole sample
set commits; if any insert fails the transaction rolls back entirely (state
unchanged), the error is logged, and `initDb` still returns successfully, so
startup continues. -/
theorem c2_seed_atomic_nonfatal (db : DbState) (now : Nat) (insertOk : Nat → Bool)
    (hdb : db.rows = []) :
    ((∀ j, j < 12 → insertOk j = true) →
      initDb db now true insertOk =
        .ok ({ rows := materializeSeed db.nextId now seedProducts,
               nextId := db.nextId + 12 },
             ["Seeding products table...", "Seed complete."])) ∧
    ((∃ j, j < 12 ∧ insertOk j = false) →
      initDb db now true insertOk =
        .ok (db, ["Seeding products table...", "Error seeding products:"])) := by
  constructor
  · intro hall
    exact initDb_seeds db now insertOk hdb (fun j hj => hall j (by exact hj))
  · intro hex
    exact initDb_seed_fails db now insertOk hdb hex

/-- C2 witness: with the sixth insert failing on an empty database, the state
is unchanged, the error is logged, and `initDb` still succeeds. -/
theorem c2_witness :
    initDb DbState.empty 0 true failAt5 =
      .ok (DbState.empty, ["Seeding products table...", "Error seeding products:"]) :=
  (c2_seed_atomic_nonfatal DbState.empty 0 failAt5 rfl).2 ⟨5, by decide, by decide⟩

/-- C9: if DATABASE_URL is absent the process exits with code 1; if schema
creation fails the process never reaches listening; and when it does listen
with no PORT configured, the port is 3000. -/
theorem c9_bootstrap (env : Env) (db : DbState) (now : Nat) (cOk : Bool)
    (iOk : Nat → Bool) :
    (env.databaseUrl = none → bootstrap env db now cOk iOk = .exited 1) ∧
    (cOk = false → ∀ pt, bootstrap env db now cOk iOk ≠ .listening pt) ∧
    (env.port = none → ∀ pt, bootstrap env db now cOk iOk = .listening pt → pt = "3000") := by
  refine ⟨?_, ?_, ?_⟩
  · intro h
    unfold bootstrap
    rw [h]
    rfl
  · intro h pt
    subst h
    unfold bootstrap
    cases hu : jsTruthy env.databaseUrl with
    | false => simp [hu]
    | true =>
      unfold initDb
      simp [hu]
  · intro hp pt h
    unfold bootstrap at h
    cases hu : jsTruthy env.databaseUrl with
    | false =>
      rw [hu, if_neg Bool.false_ne_true] at h
      cases h
    | true =>
      rw [hu, if_pos rfl] at h
      cases hi : initDb db now cOk iOk with
      | error e =>
        rw [hi] at h
        cases h
      | ok v =>
        rw [hi] at h
        injection h with h2
        rw [← h2, hp]
        rfl

/-- C9 witness: with DATABASE_URL absent the process exits with code 1. -/
theorem c9_witness : bootstrap envNoUrl DbState.empty 0 true alwaysOk = .exited 1 :=
  (c9_bootstrap envNoUrl DbState.empty 0 true alwaysOk).1 rfl

/-- C6 counterexample: a supplied ext_id of 0 is not stored as given — the
JS expression `ext_id || null` coerces the falsy 0 to null in the created
row. -/
theorem c6_counterexample :
    bodyExtZero.ext_id = some 0 ∧
    (createProduct DbState.empty 7 bodyExtZero).2 =
      CreateResult.created 201
        { id := 1, ext_id := none, name := "Widget", category := none, price := 1000,
          image := none, stock := 0, created_at := 7 } :=
  ⟨rfl, by decide⟩

/-- C6 (amended): on a create request with name and price present, the row is
inserted and returned with status 201, carrying the database-assigned id and
created_at; an omitted ext_id is stored as null and an omitted stock defaults
to 0; a supplied nonzero ext_id is stored as given (a supplied 0 is coerced
to null by JS truthiness). -/
theorem c6_create_success (db : DbState) (now : Nat) (body : CreateBody) (nm : String)
    (pr : Int) (hn : body.name = some nm) (hp : body.price = some pr) :
    createProduct db now body =
      ({ rows := db.rows ++ [mkRow db.nextId now (jsOrInt body.ext_id none) nm body.category pr
                   body.image ((jsOrInt body.stock (some 0)).getD 0)],
         nextId := db.nextId + 1 },
       CreateResult.created 201
         (mkRow db.nextId now (jsOrInt body.ext_id none) nm body.category pr
           body.image ((jsOrInt body.stock (some 0)).getD 0))) ∧
    (body.ext_id = none → jsOrInt body.ext_id none = none) ∧
    (∀ n : Int, body.ext_id = some n → n ≠ 0 → jsOrInt body.ext_id none = some n) ∧
    (body.stock = none → (jsOrInt body.stock (some 0)).getD 0 = 0) := by
  obtain ⟨bn, bc, bp, bi, bs, be⟩ := body
  obtain rfl : bn = some nm := hn
  obtain rfl : bp = some pr := hp
  refine ⟨rfl, ?_, ?_, ?_⟩
  · intro h
    obtain rfl : be = none := h
    rfl
  · intro n h hn0
    obtain rfl : be = some n := h
    simp [jsOrInt, hn0]
  · intro h
    obtain rfl : bs = none := h
    rfl

/-- C6 witness: creating with only name and price yields status 201 and the
stored row (ext_id null, stock 0, assigned id and created_at). -/
theorem c6_witness :
    createProduct DbState.empty 7 bodyMinimal =
      ({ rows := DbState.empty.rows ++
           [mkRow DbState.empty.nextId 7 (jsOrInt bodyMinimal.ext_id none) "Widget"
              bodyMinimal.category 1250 bodyMinimal.image
              ((jsOrInt bodyMinimal.stock (some 0)).getD 0)],
         nextId := DbState.empty.nextId + 1 },
       CreateResult.created 201
         (mkRow DbState.empty.nextId 7 (jsOrInt bodyMinimal.ext_id none) "Widget"
            bodyMinimal.category 1250 bodyMinimal.image
            ((jsOrInt bodyMinimal.stock (some 0)).getD 0))) :=
  (c6_create_success DbState.empty 7 bodyMinimal "Widget" 1250 rfl rfl).1

/-- C7: a create request missing the required name or price fails with
status 500 and exactly the body "Failed to create product", and leaves the
table (in particular its row count) unchanged. -/
theorem c7_create_missing_required (db : DbState) (now : Nat) (body : CreateBody)
    (h : body.name = none ∨ body.price = none) :
    createProduct db now body = (db, CreateResult.failed 500 "Failed to create product") ∧
    (createProduct db now body).1.rows.length = db.rows.length := by
  obtain ⟨bn, bc, bp, bi, bs, be⟩ := body
  have hmain : createProduct db now ⟨bn, bc, bp, bi, bs, be⟩ =
      (db, CreateResult.failed 500 "Failed to create product") := by
    rcases h with h | h
    · obtain rfl : bn = none := h
      rfl
    · obtain rfl : bp = none := h
      cases bn <;> rfl
  exact ⟨hmain, by rw [hmain]⟩

/-- C7 witness: a create request with no price fails with the generic 500 and
the table is unchanged. -/
theorem c7_witness :
    createProduct dbX 3 bodyNoPrice = (dbX, CreateResult.failed 500 "Failed to create product") :=
  (c7_create_missing_required dbX 3 bodyNoPrice (Or.inr rfl)).1
